import Mathlib

/-!
Verification of the cta-tracker collection / transform / export pipeline.

The definitions below are shallow embeddings of the Python sources:
  scripts/collect_data.py       (timestamp parsing, source adapters, rounds)
  scripts/export_for_replit.py  (mart table export list)
  scripts/server.py             (dbt + export + push job, schedules)
  app/streamlit_app.py          (dashboard reader)
Machine integers are Nat/Int; fallible steps return Option/Except.
-/

namespace CTA

/-! ## Datetime values and the timestamp normalizer

`_parse_cta_timestamp` in scripts/collect_data.py calls
`datetime.strptime(s, fmt)` for the two formats
"%Y-%m-%dT%H:%M:%S" and "%Y%m%d %H:%M" in that order, returning the first
success and None when both raise ValueError (or when `s` is falsy).
We model CPython strptime for exactly the directives those formats use:
each numeric directive compiles to a regex alternation trying the
two-digit value classes before the single-digit class, with backtracking;
a literal space in the format matches one or more whitespace characters;
the regex must consume the whole string; the matched fields are then passed
to the datetime constructor, which validates ranges (ValueError on
failure, e.g. day out of range for month, or second 60/61 from the
leap-second classes of %S). -/

structure Datetime where
  year : Nat
  month : Nat
  day : Nat
  hour : Nat
  minute : Nat
  second : Nat
deriving DecidableEq, Repr

def isLeapYear (y : Nat) : Bool :=
  y % 4 == 0 && (y % 100 != 0 || y % 400 == 0)

def daysInMonth (y m : Nat) : Nat :=
  if m = 2 then (if isLeapYear y then 29 else 28)
  else if m = 4 ∨ m = 6 ∨ m = 9 ∨ m = 11 then 30
  else 31

/-- Validity as enforced by the `datetime` constructor (MINYEAR = 1,
MAXYEAR = 9999). -/
def Datetime.Valid (d : Datetime) : Prop :=
  1 ≤ d.year ∧ d.year ≤ 9999 ∧ 1 ≤ d.month ∧ d.month ≤ 12 ∧
  1 ≤ d.day ∧ d.day ≤ daysInMonth d.year d.month ∧
  d.hour ≤ 23 ∧ d.minute ≤ 59 ∧ d.second ≤ 59

instance (d : Datetime) : Decidable d.Valid := by
  unfold Datetime.Valid; infer_instance

/-- The `datetime(...)` constructor call made by strptime on the parsed
fields: ValueError (none) on out-of-range fields. -/
def datetime_new (f : Datetime) : Option Datetime :=
  if f.Valid then some f else none

/-- Fields a numeric strptime directive can set (the year directive is
handled separately since it is fixed-width). -/
inductive TimeField
  | month | day | hour | minute | second
deriving DecidableEq, Repr

def Datetime.setField : TimeField → Nat → Datetime → Datetime
  | .month, v, d => { d with month := v }
  | .day, v, d => { d with day := v }
  | .hour, v, d => { d with hour := v }
  | .minute, v, d => { d with minute := v }
  | .second, v, d => { d with second := v }

/-- One compiled component of a strptime format string.
`num f lo hi`: the two-digit classes accept values lo..hi, the
single-digit class accepts lo..9 (for %m and %d lo = 1, matching
regex classes that exclude 0 and 00; for %H/%M/%S lo = 0).
`year4` is %Y (exactly four digits). `space` is a literal whitespace in
the format, compiled by CPython to one-or-more whitespace characters. -/
inductive Directive
  | lit (c : Char)
  | space
  | year4
  | num (f : TimeField) (lo hi : Nat)

def charDigit (c : Char) : Option Nat :=
  if c.isDigit then some (c.toNat - 48) else none

/-- Regex matching of a compiled format against the whole input, with the
backtracking preference order of CPython TimeRE (two-digit alternatives
first). Returns the parsed fields over the strptime defaults. -/
def parseRun : List Directive → List Char → Datetime → Option Datetime
  | [], cs, acc => if cs = [] then some acc else none
  | .lit c :: rest, cs, acc =>
    match cs with
    | [] => none
    | c2 :: cs2 => if c2 = c then parseRun rest cs2 acc else none
  | .space :: rest, cs, acc =>
    match cs with
    | [] => none
    | c :: cs2 =>
      if c.isWhitespace then parseRun rest (cs2.dropWhile Char.isWhitespace) acc
      else none
  | .year4 :: rest, cs, acc =>
    match cs with
    | a :: b :: c :: d :: cs2 =>
      match charDigit a, charDigit b, charDigit c, charDigit d with
      | some w, some x, some y, some z =>
        parseRun rest cs2 { acc with year := 1000 * w + 100 * x + 10 * y + z }
      | _, _, _, _ => none
    | _ => none
  | .num f lo hi :: rest, cs, acc =>
    match cs with
    | [] => none
    | [a] =>
      match charDigit a with
      | some x => if lo ≤ x then parseRun rest [] (Datetime.setField f x acc) else none
      | none => none
    | a :: b :: cs2 =>
      match charDigit a, charDigit b with
      | some x, some y =>
        if lo ≤ 10 * x + y ∧ 10 * x + y ≤ hi then
          match parseRun rest cs2 (Datetime.setField f (10 * x + y) acc) with
          | some r => some r
          | none =>
            if lo ≤ x then parseRun rest (b :: cs2) (Datetime.setField f x acc) else none
        else
          if lo ≤ x then parseRun rest (b :: cs2) (Datetime.setField f x acc) else none
      | some x, none =>
        if lo ≤ x then parseRun rest (b :: cs2) (Datetime.setField f x acc) else none
      | none, _ => none

/-- The compiled form of "%Y-%m-%dT%H:%M:%S" (Train Tracker). -/
def fmtISO : List Directive :=
  [.year4, .lit '-', .num .month 1 12, .lit '-', .num .day 1 31, .lit 'T',
   .num .hour 0 23, .lit ':', .num .minute 0 59, .lit ':', .num .second 0 61]

/-- The compiled form of "%Y%m%d %H:%M" (Bus Tracker). -/
def fmtCompact : List Directive :=
  [.year4, .num .month 1 12, .num .day 1 31, .space,
   .num .hour 0 23, .lit ':', .num .minute 0 59]

/-- The strptime defaults: year 1900, month 1, day 1, midnight. -/
def strptimeDefault : Datetime := ⟨1900, 1, 1, 0, 0, 0⟩

/-- datetime.strptime: regex match, then the datetime constructor. -/
def strptime (fmt : List Directive) (s : String) : Option Datetime :=
  (parseRun fmt s.data strptimeDefault).bind datetime_new

/-- `_parse_cta_timestamp` from scripts/collect_data.py: falsy input gives
None; otherwise try the two formats in order, returning the first success,
None when both fail. -/
def _parse_cta_timestamp (s : String) : Option Datetime :=
  if s = "" then none
  else
    match strptime fmtISO s with
    | some d => some d
    | none => strptime fmtCompact s

/-! ### Canonical renderings (the wall-clock value a string denotes)

These follow the two formats named by the spec: the ISO-8601-like
`YYYY-MM-DDTHH:MM:SS` and the compact `YYYYMMDD HH:MM`, zero padded. -/

def dchar (n : Nat) : Char := Char.ofNat (48 + n % 10)

def pad2 (n : Nat) : List Char := [dchar (n / 10), dchar n]

def pad4 (n : Nat) : List Char :=
  [dchar (n / 1000), dchar (n / 100), dchar (n / 10), dchar n]

def isoString (d : Datetime) : String :=
  ⟨pad4 d.year ++ ('-' :: (pad2 d.month ++ ('-' :: (pad2 d.day ++ ('T' ::
   (pad2 d.hour ++ (':' :: (pad2 d.minute ++ (':' :: pad2 d.second)))))))))⟩

def compactString (d : Datetime) : String :=
  ⟨pad4 d.year ++ (pad2 d.month ++ (pad2 d.day ++ (' ' ::
   (pad2 d.hour ++ (':' :: pad2 d.minute)))))⟩

/-! ## Source adapters (scripts/collect_data.py)

Upstream records are JSON dicts; we model the fields each adapter reads as
optional values (absent key = `none`, matching `dict.get`). Request or
JSON-decoding exceptions for one station / one stop batch are modelled as
an `Except.error` response for that station or batch; they are caught in
the per-station (per-batch) loop and skipped with `continue`. -/

/-- One element of `ctatt.eta` as read by `fetch_train_arrivals`. -/
structure TrainEta where
  rn : Option String
  rt : Option String
  stpId : Option String
  staId : Option String
  staNm : Option String
  stpDe : Option String
  destSt : Option String
  destNm : Option String
  trDr : Option String
  arrT : Option String
  prdt : Option String
  isDly : Option String
  isSch : Option String
  isFlt : Option String
  heading : Option String
deriving DecidableEq, Repr

/-- A row of the raw_train_arrivals table (collected_at default omitted). -/
structure TrainRow where
  run_number : Option String
  route : String
  stop_id : Option String
  station_id : Option String
  station_name : Option String
  stop_desc : Option String
  dest_station_id : Option String
  dest_name : Option String
  direction : Option String
  predicted_arrival : Option Datetime
  prediction_made_at : Option Datetime
  is_delayed : Bool
  is_scheduled : Bool
  is_fault : Bool
  heading : Int
deriving DecidableEq, Repr

/-- One element of `bustime-response.prd` as read by
`fetch_bus_predictions`. The upstream `dly` field is a JSON boolean. -/
structure BusPrd where
  vid : Option String
  rt : Option String
  rtdir : Option String
  stpid : Option String
  stpnm : Option String
  des : Option String
  prdtm : Option String
  tmstmp : Option String
  dly : Option Bool
  typ : Option String
deriving DecidableEq, Repr

/-- A row of the raw_bus_predictions table (collected_at default omitted). -/
structure BusRow where
  vehicle_id : Option String
  route : Option String
  route_direction : Option String
  stop_id : Option String
  stop_name : Option String
  destination : Option String
  predicted_arrival : Option Datetime
  prediction_made_at : Option Datetime
  is_delayed : Bool
  prediction_type : String
deriving DecidableEq, Repr

/-- `_parse_cta_timestamp(d.get(key))`: an absent key gives None (falsy). -/
def parseOptTs : Option String → Option Datetime
  | none => none
  | some s => _parse_cta_timestamp s

/-- Python `int(s)` on a decimal string: optional sign then digits
(surrounding whitespace and underscore separators are not used by this
data and are omitted). `none` models the ValueError. -/
def digitsValCore : List Char → Nat → Option Nat
  | [], acc => some acc
  | c :: cs, acc =>
    match charDigit c with
    | some d => digitsValCore cs (10 * acc + d)
    | none => none

def pyInt (s : String) : Option Int :=
  match s.data with
  | [] => none
  | '-' :: cs => if cs = [] then none else (digitsValCore cs 0).map (fun n => -(n : Int))
  | '+' :: cs => if cs = [] then none else (digitsValCore cs 0).map (fun n => (n : Int))
  | cs => (digitsValCore cs 0).map (fun n => (n : Int))

/-- `int(eta.get("heading", 0) or 0)`: absent key gives the int default 0,
a falsy (empty) string gives 0, any other string is parsed by `int`
(ValueError = none, which escapes the collection round). -/
def headingVal : Option String → Option Int
  | none => some 0
  | some s => if s = "" then some 0 else pyInt s

/-- The tuple `fetch_train_arrivals` appends to `rows` for one eta record
(`.error` models a ValueError escaping from `int`). -/
def trainRowOf (eta : TrainEta) : Except Unit TrainRow :=
  match headingVal eta.heading with
  | none => .error ()
  | some h => .ok
    { run_number := eta.rn
      route := eta.rt.getD ""
      stop_id := eta.stpId
      station_id := eta.staId
      station_name := eta.staNm
      stop_desc := eta.stpDe
      dest_station_id := eta.destSt
      dest_name := eta.destNm
      direction := eta.trDr
      predicted_arrival := parseOptTs eta.arrT
      prediction_made_at := parseOptTs eta.prdt
      is_delayed := eta.isDly == some "1"
      is_scheduled := eta.isSch == some "1"
      is_fault := eta.isFlt == some "1"
      heading := h }

/-- The row-building loop of `fetch_train_arrivals` over one station's
eta list: a record whose route fails the configured allow-list filter is
skipped (`continue`); `routes_filter and route not in routes_filter` is
false when the filter is empty. -/
def buildTrainRows (routesFilter : List String) :
    List TrainEta → Except Unit (List TrainRow)
  | [] => .ok []
  | eta :: rest =>
    if routesFilter ≠ [] ∧ eta.rt.getD "" ∉ routesFilter then
      buildTrainRows routesFilter rest
    else
      match trainRowOf eta with
      | .error e => .error e
      | .ok row =>
        match buildTrainRows routesFilter rest with
        | .error e => .error e
        | .ok rows => .ok (row :: rows)

/-- The station loop of `fetch_train_arrivals`: a request error for one
station is caught and skipped; each station's rows are inserted before the
next station is fetched, and an uncaught row-building error aborts the
function (first component: rows inserted; second: completed normally). -/
def fetchTrainRows (routesFilter : List String) :
    List (Except Unit (List TrainEta)) → List TrainRow × Bool
  | [] => ([], true)
  | .error _ :: rest => fetchTrainRows routesFilter rest
  | .ok etas :: rest =>
    match buildTrainRows routesFilter etas with
    | .error _ => ([], false)
    | .ok rows =>
      let next := fetchTrainRows routesFilter rest
      (rows ++ next.1, next.2)

/-- The row `fetch_bus_predictions` appends for one prd record: every
field is a plain `get` (with defaults False for dly and "A" for typ);
no record is ever skipped and nothing here can raise. -/
def busRowOf (prd : BusPrd) : BusRow :=
  { vehicle_id := prd.vid
    route := prd.rt
    route_direction := prd.rtdir
    stop_id := prd.stpid
    stop_name := prd.stpnm
    destination := prd.des
    predicted_arrival := parseOptTs prd.prdtm
    prediction_made_at := parseOptTs prd.tmstmp
    is_delayed := prd.dly.getD false
    prediction_type := prd.typ.getD "A" }

/-- `for i in range(0, len(stop_ids), 10): batch = stop_ids[i : i + 10]`:
the consecutive batches of at most 10 stops each. -/
def chunks10 : List String → List (List String)
  | [] => []
  | a :: rest => ((a :: rest).take 10) :: chunks10 ((a :: rest).drop 10)
termination_by l => l.length
decreasing_by simp [List.length_drop]; omega

/-- The batch loop of `fetch_bus_predictions`: a failed batch request is
caught and skipped (`continue`); successful batches accumulate. -/
def fetch_bus_rows (oracle : List String → Except Unit (List BusPrd))
    (stop_ids : List String) : List BusRow :=
  (chunks10 stop_ids).foldl
    (fun acc batch =>
      match oracle batch with
      | .error _ => acc
      | .ok prds => acc ++ prds.map busRowOf)
    []

/-- The two raw tables of the DuckDB store. -/
structure DB where
  raw_train_arrivals : List TrainRow
  raw_bus_predictions : List BusRow
deriving DecidableEq, Repr

/-- `collect_once`: run the train adapter, then the bus adapter, each
appending to its raw table; an uncaught exception in the train adapter
aborts the round before the bus adapter runs (second component: the round
completed). -/
def collect_once (routesFilter : List String)
    (trainResps : List (Except Unit (List TrainEta)))
    (busOracle : List String → Except Unit (List BusPrd))
    (busStops : List String) (db : DB) : DB × Bool :=
  let t := fetchTrainRows routesFilter trainResps
  let db1 : DB :=
    { db with raw_train_arrivals := db.raw_train_arrivals ++ t.1 }
  if t.2 then
    ({ db1 with raw_bus_predictions :=
        db1.raw_bus_predictions ++ fetch_bus_rows busOracle busStops }, true)
  else (db1, false)


/-! ## Collection scheduling (scripts/collect_data.py, scripts/server.py)

`collect_loop` is a sequential while-loop: run a round, then sleep for the
configured interval, so round n + 1 starts `interval` seconds after round
n finished. The hosted path instead registers `job_collect` on an interval
trigger; the dispatcher that fires the trigger lives in the scheduling
library, outside this repository's sources. -/

/-- Start instant of round n of `collect_loop`, for a given duration of
each round (in seconds) and the sleep interval between rounds. -/
def loopStart (durs : Nat → Nat) (interval : Nat) : Nat → Nat
  | 0 => 0
  | n + 1 => loopStart durs interval n + durs n + interval

/-- Completion instant of round n of `collect_loop`. -/
def loopEnd (durs : Nat → Nat) (interval : Nat) (n : Nat) : Nat :=
  loopStart durs interval n + durs n

/-- Modelled from the spec: the interval scheduler used on the hosted
path fires a tick every `interval` seconds and, per the no-overlap rule,
skips the tick entirely (it does not queue a run) when the previous round
is still in progress. The dispatcher itself is library code not under
src/. Processing the first k ticks (tick j fires at time j * interval)
yields the list of executed rounds as (start, finish) pairs together with
the instant until which the scheduler is busy. -/
def schedRounds (durs : Nat → Nat) (interval : Nat) :
    Nat → List (Nat × Nat) × Nat
  | 0 => ([], 0)
  | k + 1 =>
    if k * interval < (schedRounds durs interval k).2 then
      schedRounds durs interval k
    else
      ((schedRounds durs interval k).1 ++
        [(k * interval, k * interval + durs k)],
       k * interval + durs k)

/-! ## Export file set (scripts/export_for_replit.py, app/streamlit_app.py) -/

/-- The tables exported to Parquet by `export`. -/
def TABLES : List String :=
  ["on_time_by_route_hour", "arrival_history"]

/-- The mart tables the dashboard reads (and, in parquet mode, the
exports/*.parquet views it creates). -/
def MART_TABLES : List String :=
  ["on_time_by_route_hour", "arrival_history", "headway_stats"]

/-- The files `export` writes into exports/. -/
def exportedFiles : List String := TABLES.map (fun t => t ++ ".parquet")

/-! ## Dashboard reader, recent-arrivals section (app/streamlit_app.py)

We model a pandas frame by its column list and row count, which is all the
section's control flow inspects. -/

structure DF where
  cols : List String
  nrows : Nat
deriving DecidableEq, Repr

/-- `DataFrame.drop(columns=cs)`: raises KeyError when any named column
is absent (the default errors="raise"). -/
def DF.dropCols (df : DF) (cs : List String) : Except String DF :=
  if ∀ c ∈ cs, c ∈ df.cols then
    .ok { cols := df.cols.filter (fun c => ¬ c ∈ cs), nrows := df.nrows }
  else .error "KeyError: is_delayed"

/-- The column list of the recent-arrivals SELECT over arrival_history. -/
def recentCols : List String :=
  ["collected_at", "route", "stop_name", "destination",
   "predicted_arrival", "minutes_away"]

/-- What the recent-arrivals section displays when it completes. -/
inductive RenderOutcome
  | info (msg : String)
  | table (df : DF)
deriving DecidableEq, Repr

/-- The recent-arrivals section of the dashboard: an info state when the
arrival_history table is missing or the filtered query is empty, else the
query result (at most 100 rows, the six selected columns) is displayed
after dropping the is_delayed column. `queryRows` is the number of rows
matching the mode/route/stop filter. -/
def renderRecentArrivals (hasArrivalHistory : Bool) (queryRows : Nat) :
    Except String RenderOutcome :=
  if ¬ hasArrivalHistory then .ok (.info "arrival_history table not available.")
  else
    let recent_df : DF := { cols := recentCols, nrows := min queryRows 100 }
    if recent_df.nrows = 0 then
      .ok (.info "No recent arrivals found for this stop.")
    else
      match recent_df.dropCols ["is_delayed"] with
      | .error e => .error e
      | .ok df => .ok (.table df)

/-! ## The dbt + export + push job (scripts/server.py)

The remote store content that the job can change is the exports/
directory, a set of named files; we model file bodies as Nat. The clone is
a copy of the remote; copying the local parquet files overwrites matching
names and adds new ones; `git commit` exits non-zero exactly when the
staged tree equals the clone's HEAD, in which case the push is skipped. -/

/-- Overwrite (or add) one file in a directory listing, keeping the
listing's order for existing names. -/
def setFile : List (String × Nat) → String → Nat → List (String × Nat)
  | [], n, c => [(n, c)]
  | (n2, c2) :: rest, n, c =>
    if n2 = n then (n, c) :: rest else (n2, c2) :: setFile rest n c

/-- Copy every local export file into the cloned exports/ directory. -/
def overwriteFiles (remote locals : List (String × Nat)) :
    List (String × Nat) :=
  locals.foldl (fun acc f => setFile acc f.1 f.2) remote

/-- Content of a named file in a directory listing. -/
def lookupFile : List (String × Nat) → String → Option Nat
  | [], _ => none
  | (m, d) :: rest, n => if m = n then some d else lookupFile rest n

/-- The externally observable steps of one `job_dbt_and_push` run, in
order. -/
inductive Step
  | dbtRun | dbtTest | exportStep | clone | commit | push
deriving DecidableEq, Repr

/-- Outcomes of the environment-dependent steps of one run. -/
structure JobEnv where
  dbtRunRc : Int
  dbtTestRc : Int
  exportResult : Except Unit (List (String × Nat))
  ghToken : Option String
  pushOk : Bool
deriving Repr

/-- `job_dbt_and_push`: dbt run, dbt test (each non-zero exit returns),
export (an exception returns), soft-skip without GH_TOKEN, then clone,
copy, commit, and push only when the commit found changes; a failed push
is caught and leaves the remote unchanged. Returns the executed steps and
the resulting remote exports/ content. -/
def job_dbt_and_push (env : JobEnv) (remote : List (String × Nat)) :
    List Step × List (String × Nat) :=
  if env.dbtRunRc ≠ 0 then ([.dbtRun], remote)
  else if env.dbtTestRc ≠ 0 then ([.dbtRun, .dbtTest], remote)
  else
    match env.exportResult with
    | .error _ => ([.dbtRun, .dbtTest, .exportStep], remote)
    | .ok locals =>
      match env.ghToken with
      | none => ([.dbtRun, .dbtTest, .exportStep], remote)
      | some _ =>
        let scratch := overwriteFiles remote locals
        if scratch = remote then
          ([.dbtRun, .dbtTest, .exportStep, .clone, .commit], remote)
        else if env.pushOk then
          ([.dbtRun, .dbtTest, .exportStep, .clone, .commit, .push], scratch)
        else
          ([.dbtRun, .dbtTest, .exportStep, .clone, .commit, .push], remote)

/-! ## Concrete inputs used by witnesses and counterexamples -/

/-- A train record with the mandatory stop id field absent upstream. -/
def etaNoStop : TrainEta :=
  { rn := some "417", rt := some "Red", stpId := none, staId := some "40330",
    staNm := some "Grand", stpDe := none, destSt := none, destNm := some "95th",
    trDr := some "5", arrT := none, prdt := none, isDly := none,
    isSch := none, isFlt := none, heading := none }

/-- A train record with the route field absent upstream. -/
def etaNoRoute : TrainEta :=
  { rn := some "102", rt := none, stpId := some "30036", staId := some "40330",
    staNm := some "Grand", stpDe := none, destSt := none, destNm := some "95th",
    trDr := some "5", arrT := none, prdt := none, isDly := none,
    isSch := none, isFlt := none, heading := none }

/-- A bus record with stop id and dly absent upstream. -/
def prdNoStop : BusPrd :=
  { vid := some "7954", rt := some "66", rtdir := some "Eastbound",
    stpid := none, stpnm := some "Chicago and Wells", des := some "Navy Pier",
    prdtm := none, tmstmp := none, dly := none, typ := none }

/-- A bus batch oracle that fails on every batch containing "bad" and
returns one prediction per stop otherwise. -/
def busOracleW : List String → Except Unit (List BusPrd) :=
  fun batch =>
    if "bad" ∈ batch then .error ()
    else .ok (batch.map (fun s => { prdNoStop with stpid := some s }))

/-- Twelve bus stop ids, the third one poisoned, so that the first batch
of ten fails and the second batch of two succeeds. -/
def stopsW : List String :=
  ["s1", "s2", "bad", "s4", "s5", "s6", "s7", "s8", "s9", "s10", "s11", "s12"]

/-- A job environment whose steps all succeed, exporting two files. -/
def envOkW : JobEnv :=
  { dbtRunRc := 0, dbtTestRc := 0,
    exportResult := .ok [("on_time_by_route_hour.parquet", 7),
                         ("arrival_history.parquet", 8)],
    ghToken := some "t", pushOk := true }

/-- The export file set of `envOkW`. -/
def localsW : List (String × Nat) :=
  [("on_time_by_route_hour.parquet", 7), ("arrival_history.parquet", 8)]

/-- A job environment whose dbt run step fails. -/
def envFailW : JobEnv :=
  { dbtRunRc := 2, dbtTestRc := 0, exportResult := .ok [],
    ghToken := some "t", pushOk := true }

/-- A job environment whose export step raises. -/
def envExpFailW : JobEnv :=
  { dbtRunRc := 0, dbtTestRc := 0, exportResult := .error (),
    ghToken := some "t", pushOk := true }

/-- The row `fetch_train_arrivals` builds for `etaNoStop`. -/
def rowNoStop : TrainRow :=
  { run_number := some "417", route := "Red", stop_id := none,
    station_id := some "40330", station_name := some "Grand",
    stop_desc := none, dest_station_id := none, dest_name := some "95th",
    direction := some "5", predicted_arrival := none,
    prediction_made_at := none, is_delayed := false, is_scheduled := false,
    is_fault := false, heading := 0 }

/-- The row `fetch_train_arrivals` builds for `etaNoRoute` when no route
allow-list is configured. -/
def rowNoRoute : TrainRow :=
  { run_number := some "102", route := "", stop_id := some "30036",
    station_id := some "40330", station_name := some "Grand",
    stop_desc := none, dest_station_id := none, dest_name := some "95th",
    direction := some "5", predicted_arrival := none,
    prediction_made_at := none, is_delayed := false, is_scheduled := false,
    is_fault := false, heading := 0 }

/-- A constant 90 second round duration, overrunning a 60 second
interval. -/
def dursW : Nat → Nat := fun _ => 90

/-! ## Proofs -/

lemma charDigit_dchar (n : Nat) : charDigit (dchar n) = some (n % 10) := by
  have h : n % 10 < 10 := Nat.mod_lt _ (by norm_num)
  suffices hs : ∀ k, k < 10 → charDigit (Char.ofNat (48 + k)) = some k by
    exact hs (n % 10) h
  intro k hk
  interval_cases k <;> decide

lemma dchar_ne_dash (n : Nat) : dchar n ≠ '-' := by
  have h : n % 10 < 10 := Nat.mod_lt _ (by norm_num)
  suffices hs : ∀ k, k < 10 → Char.ofNat (48 + k) ≠ '-' by
    exact hs (n % 10) h
  intro k hk
  interval_cases k <;> decide

lemma dchar_not_ws (n : Nat) : (dchar n).isWhitespace = false := by
  have h : n % 10 < 10 := Nat.mod_lt _ (by norm_num)
  suffices hs : ∀ k, k < 10 → (Char.ofNat (48 + k)).isWhitespace = false by
    exact hs (n % 10) h
  intro k hk
  interval_cases k <;> decide

lemma parseRun_nil (acc : Datetime) : parseRun [] [] acc = some acc := rfl

lemma parseRun_lit (c : Char) (rest : List Directive) (cs : List Char)
    (acc : Datetime) :
    parseRun (.lit c :: rest) (c :: cs) acc = parseRun rest cs acc := by
  simp [parseRun]

lemma parseRun_year4 (y : Nat) (hy : y ≤ 9999) (rest : List Directive)
    (cs : List Char) (acc : Datetime) :
    parseRun (.year4 :: rest) (pad4 y ++ cs) acc =
      parseRun rest cs { acc with year := y } := by
  have h1 : y / 1000 % 10 = y / 1000 := Nat.mod_eq_of_lt (by omega)
  simp only [pad4, List.cons_append, List.nil_append, parseRun,
    charDigit_dchar, h1]
  have : 1000 * (y / 1000) + 100 * (y / 100 % 10) + 10 * (y / 10 % 10) + y % 10 = y := by
    omega
  rw [this]

lemma parseRun_num_pad2 (f : TimeField) (lo hi : Nat) (rest : List Directive)
    (v : Nat) (cs : List Char) (acc r : Datetime)
    (hv : v ≤ 99) (hlo : lo ≤ v) (hhi : v ≤ hi)
    (hcont : parseRun rest cs (Datetime.setField f v acc) = some r) :
    parseRun (.num f lo hi :: rest) (pad2 v ++ cs) acc = some r := by
  have h1 : v / 10 % 10 = v / 10 := Nat.mod_eq_of_lt (by omega)
  have h2 : 10 * (v / 10) + v % 10 = v := by omega
  cases cs with
  | nil =>
    simp only [pad2, List.cons_append, List.nil_append, parseRun,
      charDigit_dchar, h1, h2]
    rw [if_pos ⟨hlo, hhi⟩, hcont]
  | cons c cs2 =>
    simp only [pad2, List.cons_append, List.nil_append, parseRun,
      charDigit_dchar, h1, h2]
    rw [if_pos ⟨hlo, hhi⟩, hcont]

lemma parseRun_space_digit (rest : List Directive) (n : Nat) (cs : List Char)
    (acc : Datetime) :
    parseRun (.space :: rest) (' ' :: dchar n :: cs) acc =
      parseRun rest (dchar n :: cs) acc := by
  simp [parseRun, List.dropWhile, dchar_not_ws]

lemma daysInMonth_le (y m : Nat) : daysInMonth y m ≤ 31 := by
  unfold daysInMonth
  split_ifs <;> norm_num

lemma data_mk (cs : List Char) : (String.mk cs).data = cs := rfl

lemma parseRun_iso (y mo da h mi se : Nat)
    (hy2 : y ≤ 9999) (hm1 : 1 ≤ mo) (hm2 : mo ≤ 12) (hd1 : 1 ≤ da)
    (hd2 : da ≤ 31) (hh : h ≤ 23) (hmi : mi ≤ 59) (hse : se ≤ 59) :
    parseRun fmtISO
      (pad4 y ++ ('-' :: (pad2 mo ++ ('-' :: (pad2 da ++ ('T' ::
       (pad2 h ++ (':' :: (pad2 mi ++ (':' :: pad2 se))))))))))
      strptimeDefault =
    some ⟨y, mo, da, h, mi, se⟩ := by
  have t6 : parseRun [.num .second 0 61] (pad2 se)
      (⟨y, mo, da, h, mi, 0⟩ : Datetime) = some ⟨y, mo, da, h, mi, se⟩ := by
    have h0 := parseRun_num_pad2 .second 0 61 [] se []
      ⟨y, mo, da, h, mi, 0⟩ ⟨y, mo, da, h, mi, se⟩
      (by omega) (by omega) (by omega) rfl
    simpa using h0
  have t5 : parseRun [.num .minute 0 59, .lit ':', .num .second 0 61]
      (pad2 mi ++ (':' :: pad2 se)) (⟨y, mo, da, h, 0, 0⟩ : Datetime) =
      some ⟨y, mo, da, h, mi, se⟩ := by
    refine parseRun_num_pad2 _ _ _ _ _ _ _ _ (by omega) (by omega) (by omega) ?_
    rw [show Datetime.setField .minute mi ⟨y, mo, da, h, 0, 0⟩ =
      (⟨y, mo, da, h, mi, 0⟩ : Datetime) from rfl, parseRun_lit]
    exact t6
  have t4 : parseRun
      [.num .hour 0 23, .lit ':', .num .minute 0 59, .lit ':', .num .second 0 61]
      (pad2 h ++ (':' :: (pad2 mi ++ (':' :: pad2 se))))
      (⟨y, mo, da, 0, 0, 0⟩ : Datetime) = some ⟨y, mo, da, h, mi, se⟩ := by
    refine parseRun_num_pad2 _ _ _ _ _ _ _ _ (by omega) (by omega) (by omega) ?_
    rw [show Datetime.setField .hour h ⟨y, mo, da, 0, 0, 0⟩ =
      (⟨y, mo, da, h, 0, 0⟩ : Datetime) from rfl]
    exact t5
  have t3 : parseRun
      [.num .day 1 31, .lit 'T', .num .hour 0 23, .lit ':', .num .minute 0 59,
       .lit ':', .num .second 0 61]
      (pad2 da ++ ('T' :: (pad2 h ++ (':' :: (pad2 mi ++ (':' :: pad2 se))))))
      (⟨y, mo, 1, 0, 0, 0⟩ : Datetime) = some ⟨y, mo, da, h, mi, se⟩ := by
    refine parseRun_num_pad2 _ _ _ _ _ _ _ _ (by omega) (by omega) (by omega) ?_
    rw [show Datetime.setField .day da ⟨y, mo, 1, 0, 0, 0⟩ =
      (⟨y, mo, da, 0, 0, 0⟩ : Datetime) from rfl, parseRun_lit]
    exact t4
  have t2 : parseRun
      [.num .month 1 12, .lit '-', .num .day 1 31, .lit 'T', .num .hour 0 23,
       .lit ':', .num .minute 0 59, .lit ':', .num .second 0 61]
      (pad2 mo ++ ('-' :: (pad2 da ++ ('T' ::
        (pad2 h ++ (':' :: (pad2 mi ++ (':' :: pad2 se))))))))
      (⟨y, 1, 1, 0, 0, 0⟩ : Datetime) = some ⟨y, mo, da, h, mi, se⟩ := by
    refine parseRun_num_pad2 _ _ _ _ _ _ _ _ (by omega) (by omega) (by omega) ?_
    rw [show Datetime.setField .month mo ⟨y, 1, 1, 0, 0, 0⟩ =
      (⟨y, mo, 1, 0, 0, 0⟩ : Datetime) from rfl, parseRun_lit]
    exact t3
  simp only [fmtISO]
  rw [parseRun_year4 y hy2]
  rw [show ({ strptimeDefault with year := y } : Datetime) =
    (⟨y, 1, 1, 0, 0, 0⟩ : Datetime) from rfl, parseRun_lit]
  exact t2

lemma parseRun_compact (y mo da h mi : Nat)
    (hy2 : y ≤ 9999) (hm1 : 1 ≤ mo) (hm2 : mo ≤ 12) (hd1 : 1 ≤ da)
    (hd2 : da ≤ 31) (hh : h ≤ 23) (hmi : mi ≤ 59) :
    parseRun fmtCompact
      (pad4 y ++ (pad2 mo ++ (pad2 da ++ (' ' :: (pad2 h ++ (':' :: pad2 mi))))))
      strptimeDefault = some ⟨y, mo, da, h, mi, 0⟩ := by
  have t5 : parseRun [.num .minute 0 59] (pad2 mi)
      (⟨y, mo, da, h, 0, 0⟩ : Datetime) = some ⟨y, mo, da, h, mi, 0⟩ := by
    have h0 := parseRun_num_pad2 .minute 0 59 [] mi []
      ⟨y, mo, da, h, 0, 0⟩ ⟨y, mo, da, h, mi, 0⟩
      (by omega) (by omega) (by omega) rfl
    simpa using h0
  have t4 : parseRun [.num .hour 0 23, .lit ':', .num .minute 0 59]
      (pad2 h ++ (':' :: pad2 mi)) (⟨y, mo, da, 0, 0, 0⟩ : Datetime) =
      some ⟨y, mo, da, h, mi, 0⟩ := by
    refine parseRun_num_pad2 _ _ _ _ _ _ _ _ (by omega) (by omega) (by omega) ?_
    rw [show Datetime.setField .hour h ⟨y, mo, da, 0, 0, 0⟩ =
      (⟨y, mo, da, h, 0, 0⟩ : Datetime) from rfl, parseRun_lit]
    exact t5
  have tsp : parseRun [.space, .num .hour 0 23, .lit ':', .num .minute 0 59]
      (' ' :: (pad2 h ++ (':' :: pad2 mi))) (⟨y, mo, da, 0, 0, 0⟩ : Datetime) =
      some ⟨y, mo, da, h, mi, 0⟩ := by
    have hsp := parseRun_space_digit
      [.num .hour 0 23, .lit ':', .num .minute 0 59] (h / 10)
      (dchar h :: (':' :: pad2 mi)) (⟨y, mo, da, 0, 0, 0⟩ : Datetime)
    rw [show (' ' :: (pad2 h ++ (':' :: pad2 mi))) =
      (' ' :: dchar (h / 10) :: dchar h :: (':' :: pad2 mi)) from rfl, hsp]
    exact t4
  have t3 : parseRun
      [.num .day 1 31, .space, .num .hour 0 23, .lit ':', .num .minute 0 59]
      (pad2 da ++ (' ' :: (pad2 h ++ (':' :: pad2 mi))))
      (⟨y, mo, 1, 0, 0, 0⟩ : Datetime) = some ⟨y, mo, da, h, mi, 0⟩ := by
    refine parseRun_num_pad2 _ _ _ _ _ _ _ _ (by omega) (by omega) (by omega) ?_
    rw [show Datetime.setField .day da ⟨y, mo, 1, 0, 0, 0⟩ =
      (⟨y, mo, da, 0, 0, 0⟩ : Datetime) from rfl]
    exact tsp
  have t2 : parseRun
      [.num .month 1 12, .num .day 1 31, .space, .num .hour 0 23, .lit ':',
       .num .minute 0 59]
      (pad2 mo ++ (pad2 da ++ (' ' :: (pad2 h ++ (':' :: pad2 mi)))))
      (⟨y, 1, 1, 0, 0, 0⟩ : Datetime) = some ⟨y, mo, da, h, mi, 0⟩ := by
    refine parseRun_num_pad2 _ _ _ _ _ _ _ _ (by omega) (by omega) (by omega) ?_
    rw [show Datetime.setField .month mo ⟨y, 1, 1, 0, 0, 0⟩ =
      (⟨y, mo, 1, 0, 0, 0⟩ : Datetime) from rfl]
    exact t3
  simp only [fmtCompact]
  rw [parseRun_year4 y hy2]
  rw [show ({ strptimeDefault with year := y } : Datetime) =
    (⟨y, 1, 1, 0, 0, 0⟩ : Datetime) from rfl]
  exact t2

lemma strptime_iso_roundtrip (d : Datetime) (hd : d.Valid) :
    strptime fmtISO (isoString d) = some d := by
  obtain ⟨hy1, hy2, hm1, hm2, hd1, hd2, hh, hmi, hse⟩ := hd
  obtain ⟨y, mo, da, h, mi, se⟩ := d
  simp only at hy1 hy2 hm1 hm2 hd1 hd2 hh hmi hse
  have hd31 : da ≤ 31 := le_trans hd2 (daysInMonth_le y mo)
  rw [strptime, isoString, data_mk,
    parseRun_iso y mo da h mi se hy2 hm1 hm2 hd1 hd31 hh hmi hse]
  simp only [Option.some_bind, datetime_new]
  rw [if_pos]
  exact ⟨hy1, hy2, hm1, hm2, hd1, hd2, hh, hmi, hse⟩

lemma strptime_iso_on_compact (d : Datetime) (hd : d.Valid) :
    strptime fmtISO (compactString d) = none := by
  obtain ⟨hy1, hy2, hm1, hm2, hd1, hd2, hh, hmi, hse⟩ := hd
  obtain ⟨y, mo, da, h, mi, se⟩ := d
  simp only at hy2
  rw [strptime, compactString, data_mk]
  simp only [fmtISO]
  rw [parseRun_year4 y hy2]
  rw [show (pad2 mo ++ (pad2 da ++ (' ' :: (pad2 h ++ (':' :: pad2 mi))))) =
    (dchar (mo / 10) :: dchar mo ::
      (pad2 da ++ (' ' :: (pad2 h ++ (':' :: pad2 mi))))) from rfl]
  simp [parseRun, dchar_ne_dash]

lemma strptime_compact_roundtrip (d : Datetime) (hd : d.Valid) :
    strptime fmtCompact (compactString d) =
      some ⟨d.year, d.month, d.day, d.hour, d.minute, 0⟩ := by
  obtain ⟨hy1, hy2, hm1, hm2, hd1, hd2, hh, hmi, hse⟩ := hd
  obtain ⟨y, mo, da, h, mi, se⟩ := d
  simp only at hy1 hy2 hm1 hm2 hd1 hd2 hh hmi
  have hd31 : da ≤ 31 := le_trans hd2 (daysInMonth_le y mo)
  rw [strptime, compactString, data_mk,
    parseRun_compact y mo da h mi hy2 hm1 hm2 hd1 hd31 hh hmi]
  simp only [Option.some_bind, datetime_new]
  rw [if_pos]
  exact ⟨hy1, hy2, hm1, hm2, hd1, hd2, hh, hmi, by norm_num⟩

lemma isoString_ne_empty (d : Datetime) : isoString d ≠ "" := by
  intro h
  have h2 := congrArg String.data h
  simp [isoString, pad4] at h2

lemma compactString_ne_empty (d : Datetime) : compactString d ≠ "" := by
  intro h
  have h2 := congrArg String.data h
  simp [compactString, pad4] at h2

/-- C5: the Timestamp Normalizer maps any string parseable in one of the
two supported formats to the wall-clock instant the string denotes
(ISO-8601-like first, then compact `YYYYMMDD HH:MM`, whose denoted instant
has second 0), and maps every other string — the empty string included —
to absent; as a total Lean function it cannot throw. -/
theorem c5_timestamp_normalizer (d : Datetime) (s : String) (hd : d.Valid) :
    _parse_cta_timestamp (isoString d) = some d ∧
    _parse_cta_timestamp (compactString d) =
      some ⟨d.year, d.month, d.day, d.hour, d.minute, 0⟩ ∧
    _parse_cta_timestamp "" = none ∧
    (strptime fmtISO s = none → strptime fmtCompact s = none →
      _parse_cta_timestamp s = none) := by
  refine ⟨?_, ?_, rfl, ?_⟩
  · rw [_parse_cta_timestamp, if_neg (isoString_ne_empty d),
      strptime_iso_roundtrip d hd]
  · rw [_parse_cta_timestamp, if_neg (compactString_ne_empty d),
      strptime_iso_on_compact d hd, strptime_compact_roundtrip d hd]
  · intro h1 h2
    rw [_parse_cta_timestamp]
    split
    · rfl
    · rw [h1, h2]

/-- Witness for C5 at the concrete instant 2026-02-26 14:43:08. -/
theorem c5_timestamp_normalizer_witness :
    _parse_cta_timestamp (isoString ⟨2026, 2, 26, 14, 43, 8⟩) =
      some ⟨2026, 2, 26, 14, 43, 8⟩ :=
  (c5_timestamp_normalizer ⟨2026, 2, 26, 14, 43, 8⟩ "x" (by decide)).1

/-! ### C1, C4: export file set and dashboard reader -/

/-- C1: the claim fails on the code — the dashboard reads three mart
tables, but the export job writes a Parquet file for only two of them:
headway_stats is a mart table with no exported file, so the published
file set does not contain a file for each of the three tables. -/
theorem c1_export_missing_headway_stats :
    "headway_stats" ∈ MART_TABLES ∧
    "headway_stats.parquet" ∉ exportedFiles ∧
    ¬ (∀ t ∈ MART_TABLES, (t ++ ".parquet") ∈ exportedFiles) := by
  refine ⟨by decide, by decide, ?_⟩
  intro h
  exact absurd (h "headway_stats" (by decide)) (by decide)

/-- C4: the claim fails on the code — the missing-table and empty-result
states do render as info messages, but rendering the recent-arrivals
section over a non-empty arrival_history query result raises KeyError,
because the code drops the is_delayed column from a frame whose SELECT
never included it. -/
theorem c4_recent_arrivals_crash :
    renderRecentArrivals false 5 =
      .ok (.info "arrival_history table not available.") ∧
    renderRecentArrivals true 0 =
      .ok (.info "No recent arrivals found for this stop.") ∧
    renderRecentArrivals true 1 = .error "KeyError: is_delayed" :=
  ⟨rfl, rfl, rfl⟩

/-! ### C2: per-adapter fault isolation in a collection round -/

lemma fetchTrainRows_all_errors (routesFilter : List String) :
    ∀ (l : List (Except Unit (List TrainEta))),
      (∀ r ∈ l, r = .error ()) →
      fetchTrainRows routesFilter l = ([], true) := by
  intro l
  induction l with
  | nil => intro _; rfl
  | cons r rest ih =>
    intro h
    rw [h r (List.mem_cons_self r rest)]
    exact ih (fun x hx => h x (List.mem_cons_of_mem r hx))

/-- C2: in a round whose train adapter fails with upstream errors (every
station request errors out and is caught), the bus adapter still runs and
its rows are appended to the raw bus table, the raw train table is
unchanged, and the round completes normally. -/
theorem c2_adapter_fault_isolation (routesFilter : List String)
    (trainResps : List (Except Unit (List TrainEta)))
    (busOracle : List String → Except Unit (List BusPrd))
    (busStops : List String) (db : DB)
    (herr : ∀ r ∈ trainResps, r = .error ()) :
    collect_once routesFilter trainResps busOracle busStops db =
      ({ db with raw_bus_predictions :=
          db.raw_bus_predictions ++ fetch_bus_rows busOracle busStops },
       true) := by
  rw [collect_once, fetchTrainRows_all_errors routesFilter trainResps herr]
  simp

/-- Witness for C2: one erroring train station, one bus stop. -/
theorem c2_adapter_fault_isolation_witness :
    collect_once [] [.error ()] busOracleW ["s1"] ⟨[], []⟩ =
      (⟨[], fetch_bus_rows busOracleW ["s1"]⟩, true) :=
  c2_adapter_fault_isolation [] [.error ()] busOracleW ["s1"] ⟨[], []⟩
    (by intro r hr; simpa using hr)

/-! ### C3: records missing mandatory fields -/

/-- C3 counterexample: a train record whose mandatory stop id field is
absent is not skipped — the batch stores it with a null stop id, refuting
the claim that such a record is neither stored nor fails the batch. -/
theorem c3_missing_field_is_stored :
    buildTrainRows [] [etaNoStop] = .ok [rowNoStop] ∧ rowNoStop.stop_id = none :=
  ⟨rfl, rfl⟩

/-- C3 as amended: a record missing route or stop id never fails the
batch by virtue of the missing field, but it is not skipped in general:
a train record with an absent route is skipped exactly when a non-empty
route allow-list is configured (its route defaults to "" and fails the
filter); with no filter it is stored, null and defaulted fields intact;
bus records are never skipped. -/
theorem c3_missing_field_handling (f : List String) (eta : TrainEta)
    (etas : List TrainEta) (rows : List TrainRow) (row : TrainRow)
    (prds : List BusPrd)
    (hf : f ≠ []) (hnf : "" ∉ f) (hrt : eta.rt = none)
    (hrow : trainRowOf eta = .ok row)
    (hrest : buildTrainRows [] etas = .ok rows) :
    buildTrainRows f (eta :: etas) = buildTrainRows f etas ∧
    buildTrainRows [] (eta :: etas) = .ok (row :: rows) ∧
    row.stop_id = eta.stpId ∧ row.route = "" ∧
    (prds.map busRowOf).length = prds.length := by
  refine ⟨?_, ?_, ?_, ?_, by simp⟩
  · rw [buildTrainRows, if_pos ⟨hf, by simp [hrt, hnf]⟩]
  · rw [buildTrainRows, if_neg (by simp), hrow, hrest]
  · cases hhv : headingVal eta.heading with
    | none => rw [trainRowOf, hhv] at hrow; exact absurd hrow (by simp)
    | some h =>
      rw [trainRowOf, hhv] at hrow
      simp only [Except.ok.injEq] at hrow
      rw [← hrow]
  · cases hhv : headingVal eta.heading with
    | none => rw [trainRowOf, hhv] at hrow; exact absurd hrow (by simp)
    | some h =>
      rw [trainRowOf, hhv] at hrow
      simp only [Except.ok.injEq] at hrow
      rw [← hrow]
      simp [hrt]

/-- Witness for C3 as amended, at a concrete record missing its route. -/
theorem c3_missing_field_handling_witness :
    buildTrainRows ["Red"] [etaNoRoute] = buildTrainRows ["Red"] [] ∧
    buildTrainRows [] [etaNoRoute] = .ok [rowNoRoute] ∧
    rowNoRoute.stop_id = etaNoRoute.stpId ∧ rowNoRoute.route = "" ∧
    ([prdNoStop].map busRowOf).length = [prdNoStop].length :=
  c3_missing_field_handling ["Red"] etaNoRoute [] [] rowNoRoute [prdNoStop]
    (by simp) (by simp) rfl rfl rfl

/-! ### C10: delay flags when the upstream field is absent -/

/-- C10: the stored is_delayed flag is true for a train record exactly
when the upstream isDly field is the string "1" (so an absent isDly gives
false), and for a bus record it is the upstream dly boolean with default
false when absent. -/
theorem c10_is_delayed_defaults (eta : TrainEta) (row : TrainRow)
    (prd : BusPrd) (hrow : trainRowOf eta = .ok row) :
    (row.is_delayed = true ↔ eta.isDly = some "1") ∧
    (eta.isDly = none → row.is_delayed = false) ∧
    (busRowOf prd).is_delayed = prd.dly.getD false ∧
    (prd.dly = none → (busRowOf prd).is_delayed = false) := by
  have hget : row.is_delayed = (eta.isDly == some "1") := by
    cases hhv : headingVal eta.heading with
    | none => rw [trainRowOf, hhv] at hrow; exact absurd hrow (by simp)
    | some h =>
      rw [trainRowOf, hhv] at hrow
      simp only [Except.ok.injEq] at hrow
      rw [← hrow]
  refine ⟨?_, ?_, rfl, ?_⟩
  · rw [hget]; exact beq_iff_eq
  · intro hnone; rw [hget, hnone]; rfl
  · intro hnone; simp [busRowOf, hnone]

/-- Witness for C10 at records whose delay fields are absent. -/
theorem c10_is_delayed_defaults_witness :
    (rowNoStop.is_delayed = true ↔ etaNoStop.isDly = some "1") ∧
    (etaNoStop.isDly = none → rowNoStop.is_delayed = false) ∧
    (busRowOf prdNoStop).is_delayed = prdNoStop.dly.getD false ∧
    (prdNoStop.dly = none → (busRowOf prdNoStop).is_delayed = false) :=
  c10_is_delayed_defaults etaNoStop rowNoStop prdNoStop rfl

/-! ### C6: bus request batching and per-batch failure isolation -/

lemma chunks10_join (l : List String) : (chunks10 l).flatten = l := by
  induction l using chunks10.induct with
  | case1 => simp [chunks10]
  | case2 a rest ih =>
    rw [chunks10, List.flatten_cons, ih, List.take_append_drop]

lemma chunks10_le (l : List String) : ∀ c ∈ chunks10 l, c.length ≤ 10 := by
  induction l using chunks10.induct with
  | case1 => simp [chunks10]
  | case2 a rest ih =>
    intro c hc
    rw [chunks10] at hc
    rcases List.mem_cons.mp hc with h | h
    · subst h
      simp [List.length_take]
    · exact ih c h

lemma fetch_bus_accum (oracle : List String → Except Unit (List BusPrd)) :
    ∀ (bs : List (List String)) (init : List BusRow),
      bs.foldl
        (fun acc batch =>
          match oracle batch with
          | .error _ => acc
          | .ok prds => acc ++ prds.map busRowOf) init =
      init ++ (bs.map (fun b =>
        match oracle b with
        | .error _ => []
        | .ok prds => prds.map busRowOf)).flatten := by
  intro bs
  induction bs with
  | nil => intro init; simp
  | cons b rest ih =>
    intro init
    cases hb : oracle b with
    | error e => simp [List.foldl_cons, hb, ih]
    | ok prds => simp [List.foldl_cons, hb, ih, List.append_assoc]

/-- C6: the bus adapter partitions the configured stop list into
consecutive batches of at most 10 stops covering every stop exactly once
(their concatenation is the original list), and the inserted rows are
the concatenation of the per-batch results, a failed batch contributing
nothing while every other batch still contributes. -/
theorem c6_bus_batching (stop_ids : List String)
    (oracle : List String → Except Unit (List BusPrd)) :
    (chunks10 stop_ids).flatten = stop_ids ∧
    (∀ c ∈ chunks10 stop_ids, c.length ≤ 10) ∧
    fetch_bus_rows oracle stop_ids =
      ((chunks10 stop_ids).map (fun b =>
        match oracle b with
        | .error _ => []
        | .ok prds => prds.map busRowOf)).flatten := by
  refine ⟨chunks10_join stop_ids, chunks10_le stop_ids, ?_⟩
  rw [fetch_bus_rows, fetch_bus_accum oracle (chunks10 stop_ids) []]
  simp

/-- Witness for C6: twelve stops split 10 + 2, the first batch failing. -/
theorem c6_bus_batching_witness :
    (chunks10 stopsW).flatten = stopsW ∧
    fetch_bus_rows busOracleW stopsW =
      ((chunks10 stopsW).map (fun b =>
        match busOracleW b with
        | .error _ => []
        | .ok prds => prds.map busRowOf)).flatten :=
  ⟨(c6_bus_batching stopsW busOracleW).1,
   (c6_bus_batching stopsW busOracleW).2.2⟩

/-! ### C9: no overlap between collection rounds -/

lemma loopStart_le_succ (durs : Nat → Nat) (interval n : Nat) :
    loopStart durs interval n ≤ loopStart durs interval (n + 1) := by
  rw [loopStart]
  omega

lemma loop_no_overlap (durs : Nat → Nat) (interval m n : Nat)
    (h : m < n) :
    loopEnd durs interval m ≤ loopStart durs interval n := by
  induction n with
  | zero => omega
  | succ k ih =>
    rcases Nat.lt_succ_iff_lt_or_eq.mp h with h2 | h2
    · exact le_trans (ih h2) (loopStart_le_succ durs interval k)
    · subst h2
      rw [loopEnd, loopStart]
      omega

lemma schedRounds_invariant (durs : Nat → Nat) (interval : Nat) :
    ∀ k : Nat,
      (∀ r ∈ (schedRounds durs interval k).1,
        r.2 ≤ (schedRounds durs interval k).2) ∧
      (schedRounds durs interval k).1.Pairwise (fun a b => a.2 ≤ b.1) ∧
      (schedRounds durs interval k).1.length ≤ k := by
  intro k
  induction k with
  | zero => simp [schedRounds]
  | succ k ih =>
    obtain ⟨h1, h2, h3⟩ := ih
    by_cases hlt : k * interval < (schedRounds durs interval k).2
    · rw [schedRounds, if_pos hlt]
      exact ⟨h1, h2, Nat.le_succ_of_le h3⟩
    · rw [schedRounds, if_neg hlt]
      push_neg at hlt
      refine ⟨?_, ?_, ?_⟩
      · intro r hr
        rcases List.mem_append.mp hr with h | h
        · exact le_trans (h1 r h) (le_trans hlt (Nat.le_add_right _ _))
        · simp only [List.mem_singleton] at h
          subst h
          exact le_refl _
      · rw [List.pairwise_append]
        refine ⟨h2, List.pairwise_singleton _ _, ?_⟩
        intro a ha b hb
        simp only [List.mem_singleton] at hb
        subst hb
        exact le_trans (h1 a ha) hlt
      · simpa using Nat.succ_le_succ h3

lemma pairwise_active_le_one (t : Nat) :
    ∀ (rounds : List (Nat × Nat)),
      rounds.Pairwise (fun a b => a.2 ≤ b.1) →
      rounds.countP (fun r => decide (r.1 ≤ t ∧ t < r.2)) ≤ 1 := by
  intro rounds
  induction rounds with
  | nil => intro _; simp
  | cons r rest ih =>
    intro hp
    rw [List.pairwise_cons] at hp
    by_cases hr : r.1 ≤ t ∧ t < r.2
    · have hz : rest.countP (fun x => decide (x.1 ≤ t ∧ t < x.2)) = 0 := by
        rw [List.countP_eq_zero]
        intro x hx
        have hle := hp.1 x hx
        simp only [decide_eq_true_eq]
        omega
      rw [List.countP_cons, hz]
      simp [hr]
    · rw [List.countP_cons]
      have hd : decide (r.1 ≤ t ∧ t < r.2) = false := by
        simp only [decide_eq_false_iff_not]
        exact hr
      rw [hd]
      simpa using ih hp.2

/-- C9: collection rounds never overlap. In the sequential loop of
collect_data.py, round n + 1 starts only after round n has completed (the
end of every earlier round is at or before the start of every later one);
under the skip-not-queue interval scheduler of the hosted path, the
executed rounds are pairwise non-overlapping, at any instant at most one
round is in progress, and at most one round starts per elapsed tick. -/
theorem c9_rounds_never_overlap (durs : Nat → Nat) (interval : Nat)
    (k m n t : Nat) (hmn : m < n) :
    loopEnd durs interval m ≤ loopStart durs interval n ∧
    (schedRounds durs interval k).1.Pairwise (fun a b => a.2 ≤ b.1) ∧
    (schedRounds durs interval k).1.countP
      (fun r => decide (r.1 ≤ t ∧ t < r.2)) ≤ 1 ∧
    (schedRounds durs interval k).1.length ≤ k := by
  obtain ⟨h1, h2, h3⟩ := schedRounds_invariant durs interval k
  exact ⟨loop_no_overlap durs interval m n hmn, h2,
    pairwise_active_le_one t _ h2, h3⟩

/-- Witness for C9: 90 second rounds against a 60 second interval. -/
theorem c9_rounds_never_overlap_witness :
    loopEnd dursW 60 0 ≤ loopStart dursW 60 1 ∧
    (schedRounds dursW 60 3).1.countP
      (fun r => decide (r.1 ≤ 100 ∧ 100 < r.2)) ≤ 1 :=
  ⟨(c9_rounds_never_overlap dursW 60 3 0 1 100 (by decide)).1,
   (c9_rounds_never_overlap dursW 60 3 0 1 100 (by decide)).2.2.1⟩

/-! ### C7, C8: the export/publish job -/

lemma overwriteFiles_cons (r : List (String × Nat)) (f : String × Nat)
    (l : List (String × Nat)) :
    overwriteFiles r (f :: l) = overwriteFiles (setFile r f.1 f.2) l := rfl

lemma lookup_setFile_self (acc : List (String × Nat)) (n : String) (c : Nat) :
    lookupFile (setFile acc n c) n = some c := by
  induction acc with
  | nil => simp [setFile, lookupFile]
  | cons p rest ih =>
    obtain ⟨m, d⟩ := p
    by_cases h : m = n
    · subst h
      simp [setFile, lookupFile]
    · simp [setFile, lookupFile, h, ih]

lemma lookup_setFile_ne (acc : List (String × Nat)) (m : String) (d : Nat)
    (n : String) (h : m ≠ n) :
    lookupFile (setFile acc m d) n = lookupFile acc n := by
  induction acc with
  | nil => simp [setFile, lookupFile, h]
  | cons p rest ih =>
    obtain ⟨m2, d2⟩ := p
    by_cases h2 : m2 = m
    · subst h2
      simp [setFile, lookupFile, h]
    · by_cases h3 : m2 = n
      · subst h3
        simp [setFile, lookupFile, h2]
      · simp [setFile, lookupFile, h2, h3, ih]

lemma setFile_lookup_eq (acc : List (String × Nat)) (n : String) (c : Nat)
    (h : lookupFile acc n = some c) : setFile acc n c = acc := by
  induction acc with
  | nil => simp [lookupFile] at h
  | cons p rest ih =>
    obtain ⟨m, d⟩ := p
    by_cases h2 : m = n
    · subst h2
      rw [lookupFile, if_pos rfl] at h
      simp only [Option.some.injEq] at h
      subst h
      simp [setFile]
    · rw [lookupFile, if_neg h2] at h
      simp [setFile, h2, ih h]

lemma lookup_overwrite_not_mem (locals : List (String × Nat)) :
    ∀ (r : List (String × Nat)) (n : String),
      n ∉ locals.map Prod.fst →
      lookupFile (overwriteFiles r locals) n = lookupFile r n := by
  induction locals with
  | nil => intro r n _; rfl
  | cons f rest ih =>
    intro r n hn
    simp only [List.map_cons, List.mem_cons] at hn
    push_neg at hn
    rw [overwriteFiles_cons, ih (setFile r f.1 f.2) n hn.2,
      lookup_setFile_ne r f.1 f.2 n (fun h => hn.1 h.symm)]

lemma overwrite_idem (locals : List (String × Nat)) :
    ∀ (r : List (String × Nat)),
      (locals.map Prod.fst).Nodup →
      overwriteFiles (overwriteFiles r locals) locals =
        overwriteFiles r locals := by
  induction locals with
  | nil => intro r _; rfl
  | cons f rest ih =>
    intro r hnd
    simp only [List.map_cons, List.nodup_cons] at hnd
    rw [overwriteFiles_cons, overwriteFiles_cons]
    have hset : setFile (overwriteFiles (setFile r f.1 f.2) rest) f.1 f.2 =
        overwriteFiles (setFile r f.1 f.2) rest := by
      apply setFile_lookup_eq
      rw [lookup_overwrite_not_mem rest (setFile r f.1 f.2) f.1 hnd.1]
      exact lookup_setFile_self r f.1 f.2
    rw [hset]
    exact ih (setFile r f.1 f.2) hnd.2

lemma job_run_reaches_commit (env : JobEnv) (remote : List (String × Nat))
    (locals : List (String × Nat)) (tk : String)
    (hrun : env.dbtRunRc = 0) (htest : env.dbtTestRc = 0)
    (hexp : env.exportResult = .ok locals) (htok : env.ghToken = some tk) :
    job_dbt_and_push env remote =
      if overwriteFiles remote locals = remote then
        ([.dbtRun, .dbtTest, .exportStep, .clone, .commit], remote)
      else if env.pushOk then
        ([.dbtRun, .dbtTest, .exportStep, .clone, .commit, .push],
         overwriteFiles remote locals)
      else
        ([.dbtRun, .dbtTest, .exportStep, .clone, .commit, .push], remote) := by
  rw [job_dbt_and_push, if_neg (by simp [hrun]), if_neg (by simp [htest]),
    hexp, htok]

/-- C7: with all steps healthy and the exported file set actually changed
relative to the remote, running the job twice with the same export
content pushes exactly once — the first run pushes and updates the
remote, the second run finds an empty change set at the commit step and
skips the push. -/
theorem c7_skip_push_on_no_change (env : JobEnv)
    (remote locals : List (String × Nat)) (tk : String)
    (hrun : env.dbtRunRc = 0) (htest : env.dbtTestRc = 0)
    (hexp : env.exportResult = .ok locals) (htok : env.ghToken = some tk)
    (hpush : env.pushOk = true)
    (hnodup : (locals.map Prod.fst).Nodup)
    (hchange : overwriteFiles remote locals ≠ remote) :
    (job_dbt_and_push env remote).1.count .push = 1 ∧
    (job_dbt_and_push env remote).2 = overwriteFiles remote locals ∧
    (job_dbt_and_push env (job_dbt_and_push env remote).2).1.count .push
      = 0 := by
  have h1 := job_run_reaches_commit env remote locals tk hrun htest hexp htok
  rw [if_neg hchange, if_pos (by rw [hpush])] at h1
  have h2 := job_run_reaches_commit env (overwriteFiles remote locals)
    locals tk hrun htest hexp htok
  rw [if_pos (overwrite_idem locals remote hnodup)] at h2
  refine ⟨?_, ?_, ?_⟩
  · rw [h1]; rfl
  · rw [h1]
  · rw [h1]
    show (job_dbt_and_push env (overwriteFiles remote locals)).1.count .push = 0
    rw [h2]
    rfl

/-- Witness for C7: an empty remote receiving two export files. -/
theorem c7_skip_push_on_no_change_witness :
    (job_dbt_and_push envOkW []).1.count .push = 1 ∧
    (job_dbt_and_push envOkW (job_dbt_and_push envOkW []).2).1.count .push
      = 0 :=
  ⟨(c7_skip_push_on_no_change envOkW [] localsW "t" rfl rfl rfl rfl rfl
      (by decide) (by decide)).1,
   (c7_skip_push_on_no_change envOkW [] localsW "t" rfl rfl rfl rfl rfl
      (by decide) (by decide)).2.2⟩

/-- C8: any step failure aborts the rest of that run without an in-run
retry — a dbt failure stops before export, clone and push; an export
failure stops before clone and push; and no step ever appears twice in
one run's executed step list. -/
theorem c8_step_failure_aborts (env : JobEnv)
    (remote : List (String × Nat)) :
    (env.dbtRunRc ≠ 0 → (job_dbt_and_push env remote).1 = [.dbtRun]) ∧
    (env.dbtRunRc = 0 → env.dbtTestRc = 0 → env.exportResult = .error () →
      (job_dbt_and_push env remote).1 = [.dbtRun, .dbtTest, .exportStep]) ∧
    (∀ s : Step, (job_dbt_and_push env remote).1.count s ≤ 1) := by
  refine ⟨?_, ?_, ?_⟩
  · intro h
    rw [job_dbt_and_push, if_pos h]
  · intro h1 h2 h3
    rw [job_dbt_and_push, if_neg (by simp [h1]), if_neg (by simp [h2]), h3]
  · intro s
    by_cases h1 : env.dbtRunRc ≠ 0
    · rw [job_dbt_and_push, if_pos h1]
      cases s <;> simp [List.count_cons, List.count_nil]
    · by_cases h2 : env.dbtTestRc ≠ 0
      · rw [job_dbt_and_push, if_neg h1, if_pos h2]
        cases s <;> simp [List.count_cons, List.count_nil]
      · cases hexp : env.exportResult with
        | error e =>
          rw [job_dbt_and_push, if_neg h1, if_neg h2, hexp]
          cases s <;> simp [List.count_cons, List.count_nil]
        | ok locals =>
          cases htok : env.ghToken with
          | none =>
            rw [job_dbt_and_push, if_neg h1, if_neg h2, hexp, htok]
            cases s <;> simp [List.count_cons, List.count_nil]
          | some tk =>
            push_neg at h1 h2
            rw [job_run_reaches_commit env remote locals tk h1 h2 hexp htok]
            by_cases h3 : overwriteFiles remote locals = remote
            · rw [if_pos h3]
              cases s <;> simp [List.count_cons, List.count_nil]
            · rw [if_neg h3]
              by_cases h4 : env.pushOk = true
              · rw [if_pos h4]
                cases s <;> simp [List.count_cons, List.count_nil]
              · rw [if_neg h4]
                cases s <;> simp [List.count_cons, List.count_nil]

/-- Witness for C8: a failing dbt run and a failing export step. -/
theorem c8_step_failure_aborts_witness :
    (job_dbt_and_push envFailW []).1 = [.dbtRun] ∧
    (job_dbt_and_push envExpFailW []).1 = [.dbtRun, .dbtTest, .exportStep] :=
  ⟨(c8_step_failure_aborts envFailW []).1 (by decide),
   (c8_step_failure_aborts envExpFailW []).2.1 rfl rfl rfl⟩

end CTA
